import Mathlib

/-!
Shallow embedding of `crates/ui/src/components/keybinding.rs`: the keystroke
presenter that formats (modifiers, key) pairs into platform-appropriate label
strings and display-token lists.

Display elements (`AnyElement`) are abstracted to their token content: a
`Key` element carrying a string, a `KeyIcon` element carrying an icon name,
and the `"+"` separator element, exactly the three shapes produced by the
source's rendering functions.
-/

/-- `PlatformStyle` (tri-state enum from the `ui` crate). -/
inductive PlatformStyle where
  | Mac
  | Linux
  | Windows
deriving DecidableEq, Repr

/-- The five modifier flags of `gpui::Modifiers`, field order as in gpui. -/
structure Modifiers where
  control : Bool
  alt : Bool
  shift : Bool
  platform : Bool
  function : Bool
deriving DecidableEq, Repr

/-- Modelled from the spec: `gpui::Modifiers::modified` is not under `src/`;
the spec describes the trailing-separator condition as "at least one modifier
is enabled", i.e. the disjunction of the five flags. -/
def Modifiers.modified (m : Modifiers) : Bool :=
  m.control || m.alt || m.shift || m.platform || m.function

/-- The icon identifiers used by the keybinding component. -/
inductive IconName where
  | ArrowLeft
  | ArrowRight
  | ArrowUp
  | ArrowDown
  | Backspace
  | Return
  | Tab
  | Space
  | Escape
  | PageDown
  | PageUp
  | Shift
  | Control
  | Command
  | Option
deriving DecidableEq, Repr

namespace util

/-- Modelled from the spec: `util::capitalize` is not under `src/`; the spec
says "first character uppercased, rest unchanged". -/
def capitalize (s : String) : String :=
  match s.data with
  | [] => ""
  | c :: rest => String.mk (Char.toUpper c :: rest)

end util

/-- A keystroke: one key identifier plus a modifier set (`gpui::Keystroke`). -/
structure Keystroke where
  modifiers : Modifiers
  key : String
deriving DecidableEq, Repr

/-- A display keystroke (`gpui::KeybindingKeystroke`): the accessors
`modifiers()` and `key()` are the two components the presenter reads. -/
structure KeybindingKeystroke where
  modifiers : Modifiers
  key : String
deriving DecidableEq, Repr

/-- `keystroke_text` from `keybinding.rs` (lines 444-494): builds the textual
label by appending, in program order, the enabled-modifier words each followed
by the `'-'` delimiter, then the final key token. -/
def keystroke_text (modifiers : Modifiers) (key : String)
    (platform_style : PlatformStyle) : String :=
  let text := ""
  let text := if modifiers.function then text ++ "Fn" ++ "-" else text
  let text :=
    if modifiers.control then
      (match platform_style with
        | PlatformStyle.Mac => text ++ "Control"
        | PlatformStyle.Linux => text ++ "Ctrl"
        | PlatformStyle.Windows => text ++ "Ctrl") ++ "-"
    else text
  let text :=
    if modifiers.platform then
      (match platform_style with
        | PlatformStyle.Mac => text ++ "Command"
        | PlatformStyle.Linux => text ++ "Super"
        | PlatformStyle.Windows => text ++ "Win") ++ "-"
    else text
  let text :=
    if modifiers.alt then
      (match platform_style with
        | PlatformStyle.Mac => text ++ "Option"
        | PlatformStyle.Linux => text ++ "Alt"
        | PlatformStyle.Windows => text ++ "Alt") ++ "-"
    else text
  let text := if modifiers.shift then text ++ "Shift" ++ "-" else text
  let key :=
    match key with
    | "pageup" => "PageUp"
    | "pagedown" => "PageDown"
    | key => util.capitalize key
  text ++ key

/-- The final key token of `keystroke_text`: the match on the key string at
lines 486-490 of `keybinding.rs`. -/
def final_key_label (key : String) : String :=
  match key with
  | "pageup" => "PageUp"
  | "pagedown" => "PageDown"
  | key => util.capitalize key

/-- The enabled-modifier words of `keystroke_text`, in the order the source
emits them: function, control, platform, alt, shift. -/
def enabled_modifier_labels (m : Modifiers) (style : PlatformStyle) :
    List String :=
  (if m.function then ["Fn"] else []) ++
  (if m.control then
    [match style with
      | PlatformStyle.Mac => "Control"
      | PlatformStyle.Linux => "Ctrl"
      | PlatformStyle.Windows => "Ctrl"]
  else []) ++
  (if m.platform then
    [match style with
      | PlatformStyle.Mac => "Command"
      | PlatformStyle.Linux => "Super"
      | PlatformStyle.Windows => "Win"]
  else []) ++
  (if m.alt then
    [match style with
      | PlatformStyle.Mac => "Option"
      | PlatformStyle.Linux => "Alt"
      | PlatformStyle.Windows => "Alt"]
  else []) ++
  (if m.shift then ["Shift"] else [])

/-- The modifier portion of the label: each enabled word followed by `'-'`. -/
def modifier_text (m : Modifiers) (style : PlatformStyle) : String :=
  List.foldl (fun acc l => acc ++ l ++ "-") "" (enabled_modifier_labels m style)

/-- Comparison definition written from the spec's words (not the source): the
spec claims modifier labels are emitted in the order function, control, alt,
platform, shift, i.e. with the alt word before the platform word. -/
def keystroke_text_spec_order (modifiers : Modifiers) (key : String)
    (platform_style : PlatformStyle) : String :=
  let text := ""
  let text := if modifiers.function then text ++ "Fn" ++ "-" else text
  let text :=
    if modifiers.control then
      (match platform_style with
        | PlatformStyle.Mac => text ++ "Control"
        | PlatformStyle.Linux => text ++ "Ctrl"
        | PlatformStyle.Windows => text ++ "Ctrl") ++ "-"
    else text
  let text :=
    if modifiers.alt then
      (match platform_style with
        | PlatformStyle.Mac => text ++ "Option"
        | PlatformStyle.Linux => text ++ "Alt"
        | PlatformStyle.Windows => text ++ "Alt") ++ "-"
    else text
  let text :=
    if modifiers.platform then
      (match platform_style with
        | PlatformStyle.Mac => text ++ "Command"
        | PlatformStyle.Linux => text ++ "Super"
        | PlatformStyle.Windows => text ++ "Win") ++ "-"
    else text
  let text := if modifiers.shift then text ++ "Shift" ++ "-" else text
  text ++ final_key_label key

/-- `itertools::Itertools::join` on an iterator of strings, as used by
`text_for_keystrokes`: concatenation with the separator between consecutive
elements. -/
def join_with (sep : String) : List String → String
  | [] => ""
  | [a] => a
  | a :: b :: rest => a ++ sep ++ join_with sep (b :: rest)

/-- `text_for_keystrokes` from `keybinding.rs` (lines 422-428). The source
reads the process-wide `PlatformStyle::platform()`; that ambient value is
threaded here as the `platform_style` argument. -/
def text_for_keystrokes (keystrokes : List Keystroke)
    (platform_style : PlatformStyle) : String :=
  join_with " "
    (keystrokes.map (fun keystroke =>
      keystroke_text keystroke.modifiers keystroke.key platform_style))

/-- The token content of a rendered display element. This is the source's
internal `KeyOrIcon` enum of `render_modifiers`, reused for the whole token
layer: `Key` is a `Key::new(text, ..)` element, `Icon` a `KeyIcon::new(..)`
element, and `Plus` the `"+"` separator element. -/
inductive KeyOrIcon where
  | Key (key : String)
  | Plus
  | Icon (icon : IconName)
deriving DecidableEq, Repr

/-- One row of the modifier table inside `render_modifiers`. -/
structure ModifierRow where
  enabled : Bool
  mac : KeyOrIcon
  linux : KeyOrIcon
  windows : KeyOrIcon

/-- `icon_for_key` from `keybinding.rs` (lines 221-243): the guard clauses
`if platform_style == PlatformStyle::Mac` become conditionals that fall
through to `None`. -/
def icon_for_key (key : String) (platform_style : PlatformStyle) :
    Option IconName :=
  match key with
  | "left" => some IconName.ArrowLeft
  | "right" => some IconName.ArrowRight
  | "up" => some IconName.ArrowUp
  | "down" => some IconName.ArrowDown
  | "backspace" => some IconName.Backspace
  | "delete" => some IconName.Backspace
  | "return" => some IconName.Return
  | "enter" => some IconName.Return
  | "tab" => some IconName.Tab
  | "space" => some IconName.Space
  | "escape" => some IconName.Escape
  | "pagedown" => some IconName.PageDown
  | "pageup" => some IconName.PageUp
  | "shift" =>
    if platform_style = PlatformStyle.Mac then some IconName.Shift else none
  | "control" =>
    if platform_style = PlatformStyle.Mac then some IconName.Control else none
  | "platform" =>
    if platform_style = PlatformStyle.Mac then some IconName.Command else none
  | "function" =>
    if platform_style = PlatformStyle.Mac then some IconName.Control else none
  | "alt" =>
    if platform_style = PlatformStyle.Mac then some IconName.Option else none
  | _ => none

/-- `render_key` from `keybinding.rs` (lines 120-134): an icon element when
`icon_for_key` hits, otherwise a text element with the capitalized key. -/
def render_key (key : String) (platform_style : PlatformStyle) : KeyOrIcon :=
  match icon_for_key key platform_style with
  | some icon => KeyOrIcon.Icon icon
  | none => KeyOrIcon.Key (util.capitalize key)

/-- `render_modifiers` from `keybinding.rs` (lines 245-336): build the fixed
five-row table, filter by the enabled flag, pick the per-platform token, then
`itertools::intersperse` with the platform separator (`None` on Mac,
`Some(Plus)` on Linux/Windows), chain the trailing separator when
`modifiers.modified() && trailing_separator`, and flatten the options away. -/
def render_modifiers (modifiers : Modifiers) (platform_style : PlatformStyle)
    (trailing_separator : Bool) : List KeyOrIcon :=
  let table : List ModifierRow :=
    [⟨modifiers.function, KeyOrIcon.Icon IconName.Control,
        KeyOrIcon.Key "Fn", KeyOrIcon.Key "Fn"⟩,
      ⟨modifiers.control, KeyOrIcon.Icon IconName.Control,
        KeyOrIcon.Key "Ctrl", KeyOrIcon.Key "Ctrl"⟩,
      ⟨modifiers.alt, KeyOrIcon.Icon IconName.Option,
        KeyOrIcon.Key "Alt", KeyOrIcon.Key "Alt"⟩,
      ⟨modifiers.platform, KeyOrIcon.Icon IconName.Command,
        KeyOrIcon.Key "Super", KeyOrIcon.Key "Win"⟩,
      ⟨modifiers.shift, KeyOrIcon.Icon IconName.Shift,
        KeyOrIcon.Key "Shift", KeyOrIcon.Key "Shift"⟩]
  let filtered := table.filter (fun modifier => modifier.enabled)
  let platform_keys : List (Option KeyOrIcon) :=
    filtered.map (fun modifier =>
      match platform_style with
      | PlatformStyle.Mac => some modifier.mac
      | PlatformStyle.Linux => some modifier.linux
      | PlatformStyle.Windows => some modifier.windows)
  let separator : Option KeyOrIcon :=
    match platform_style with
    | PlatformStyle.Mac => none
    | PlatformStyle.Linux => some KeyOrIcon.Plus
    | PlatformStyle.Windows => some KeyOrIcon.Plus
  let platform_keys := List.intersperse separator platform_keys
  let chained :=
    platform_keys ++
      (if modifiers.modified && trailing_separator then [separator] else [])
  chained.filterMap id

/-- `render_keybinding_keystroke` from `keybinding.rs` (lines 187-219): on
Linux/Windows (`use_text`) a single text element holding the full
`keystroke_text` label; on Mac the modifier tokens (with a trailing separator
requested) followed by the key token. -/
def render_keybinding_keystroke (keystroke : KeybindingKeystroke)
    (platform_style : PlatformStyle) : List KeyOrIcon :=
  match platform_style with
  | PlatformStyle.Linux | PlatformStyle.Windows =>
    [KeyOrIcon.Key
      (keystroke_text keystroke.modifiers keystroke.key platform_style)]
  | PlatformStyle.Mac =>
    render_modifiers keystroke.modifiers platform_style true ++
      [render_key keystroke.key platform_style]

/-- The `Source` enum of `keybinding.rs`: a boxed action with an optional
focus handle, or an explicit keystroke list. Actions and focus handles are
opaque to the presenter and modelled as identifiers. -/
inductive Source where
  | Action (action : Nat) (focus_handle : Option Nat)
  | Keystrokes (keystrokes : List KeybindingKeystroke)
deriving DecidableEq, Repr

/-- The `KeyBinding` component struct (field order as in the source). -/
structure KeyBinding where
  source : Source
  size : Option Nat
  platform_style : PlatformStyle
  disabled : Bool
deriving DecidableEq, Repr

/-- The window facilities `KeyBinding` consumes: the two binding lookups and
the currently focused handle, all external collaborators of the presenter. -/
structure Window where
  bindingForActionIn : Nat → Nat → Option (List KeybindingKeystroke)
  bindingForAction : Nat → Option (List KeybindingKeystroke)
  focused : Option Nat

/-- `KeyBinding::new`: the `PlatformStyle::platform()` read is threaded as the
`global_style` argument. -/
def KeyBinding.new (action : Nat) (focus_handle : Option Nat)
    (global_style : PlatformStyle) : KeyBinding :=
  ⟨Source.Action action focus_handle, none, global_style, false⟩

/-- `KeyBinding::for_action`. -/
def KeyBinding.for_action (action : Nat) (global_style : PlatformStyle) :
    KeyBinding :=
  KeyBinding.new action none global_style

/-- `KeyBinding::for_action_in`. -/
def KeyBinding.for_action_in (action : Nat) (focus : Nat)
    (global_style : PlatformStyle) : KeyBinding :=
  KeyBinding.new action (some focus) global_style

/-- `KeyBinding::from_keystrokes` (the `KeybindSource` argument is ignored by
the source and omitted). -/
def KeyBinding.from_keystrokes (keystrokes : List KeybindingKeystroke)
    (global_style : PlatformStyle) : KeyBinding :=
  ⟨Source.Keystrokes keystrokes, none, global_style, false⟩

/-- The builder method `KeyBinding::platform_style` (named `set_platform_style`
here because the field projection already takes the source name). -/
def KeyBinding.set_platform_style (self : KeyBinding)
    (platform_style : PlatformStyle) : KeyBinding :=
  ⟨self.source, self.size, platform_style, self.disabled⟩

/-- The builder method `KeyBinding::disabled`. -/
def KeyBinding.set_disabled (self : KeyBinding) (disabled : Bool) :
    KeyBinding :=
  ⟨self.source, self.size, self.platform_style, disabled⟩

/-- `KeyBinding::has_binding` (lines 66-77): only the action-with-focus-handle
variant consults the window; every other source yields `false`. -/
def KeyBinding.has_binding (self : KeyBinding) (window : Window) : Bool :=
  match self.source with
  | Source.Action action (some focus) =>
    (match window.bindingForActionIn action focus with
      | some b => some b
      | none => window.bindingForAction action).isSome
  | _ => false

/-- `KeyBinding::render` (lines 136-185), abstracted to token content: `none`
models the empty fallback element. The keystroke path calls
`render_keybinding_keystroke` with `PlatformStyle::platform()` — the ambient
process-wide value, threaded here as `global_style` — and not with
`self.platform_style`. -/
def KeyBinding.render (self : KeyBinding) (window : Window)
    (global_style : PlatformStyle) : Option (List (List KeyOrIcon)) :=
  let render_keybinding := fun (keystrokes : List KeybindingKeystroke) =>
    keystrokes.map (fun keystroke =>
      render_keybinding_keystroke keystroke global_style)
  match self.source with
  | Source.Action action focus_handle =>
    (match
        (match
            (match focus_handle with
              | some f => some f
              | none => window.focused) with
          | some focus => window.bindingForActionIn action focus
          | none => none) with
      | some b => some b
      | none => window.bindingForAction action).map render_keybinding
  | Source.Keystrokes keystrokes => some (render_keybinding keystrokes)

/-- The per-modifier tokens `render_modifiers` selects, in the table order of
the source (function, control, alt, platform, shift), restricted to the
enabled flags. -/
def enabled_modifier_tokens (m : Modifiers) (style : PlatformStyle) :
    List KeyOrIcon :=
  (if m.function then
    [match style with
      | PlatformStyle.Mac => KeyOrIcon.Icon IconName.Control
      | PlatformStyle.Linux => KeyOrIcon.Key "Fn"
      | PlatformStyle.Windows => KeyOrIcon.Key "Fn"]
  else []) ++
  (if m.control then
    [match style with
      | PlatformStyle.Mac => KeyOrIcon.Icon IconName.Control
      | PlatformStyle.Linux => KeyOrIcon.Key "Ctrl"
      | PlatformStyle.Windows => KeyOrIcon.Key "Ctrl"]
  else []) ++
  (if m.alt then
    [match style with
      | PlatformStyle.Mac => KeyOrIcon.Icon IconName.Option
      | PlatformStyle.Linux => KeyOrIcon.Key "Alt"
      | PlatformStyle.Windows => KeyOrIcon.Key "Alt"]
  else []) ++
  (if m.platform then
    [match style with
      | PlatformStyle.Mac => KeyOrIcon.Icon IconName.Command
      | PlatformStyle.Linux => KeyOrIcon.Key "Super"
      | PlatformStyle.Windows => KeyOrIcon.Key "Win"]
  else []) ++
  (if m.shift then
    [match style with
      | PlatformStyle.Mac => KeyOrIcon.Icon IconName.Shift
      | PlatformStyle.Linux => KeyOrIcon.Key "Shift"
      | PlatformStyle.Windows => KeyOrIcon.Key "Shift"]
  else [])

theorem keystroke_text_decompose (m : Modifiers) (key : String)
    (style : PlatformStyle) :
    keystroke_text m key style = modifier_text m style ++ final_key_label key := by
  obtain ⟨c, a, s, p, f⟩ := m
  cases c <;> cases a <;> cases s <;> cases p <;> cases f <;> cases style <;> rfl

theorem final_key_label_of_ne (key : String) (h1 : key ≠ "pageup")
    (h2 : key ≠ "pagedown") : final_key_label key = util.capitalize key := by
  unfold final_key_label
  split <;> simp_all

theorem join_with_append (sep : String) (xs ys : List String) (hx : xs ≠ [])
    (hy : ys ≠ []) :
    join_with sep (xs ++ ys) = join_with sep xs ++ sep ++ join_with sep ys := by
  induction xs with
  | nil => exact absurd rfl hx
  | cons a t ih =>
    cases t with
    | nil =>
      cases ys with
      | nil => exact absurd rfl hy
      | cons b u => simp [join_with]
    | cons b u =>
      have h := ih (by simp)
      show a ++ sep ++ join_with sep ((b :: u) ++ ys) = _
      rw [h]
      simp [join_with, String.append_assoc]

theorem icon_for_key_none_of_unlisted (key : String) (style : PlatformStyle)
    (h : key ∉ (["left", "right", "up", "down", "backspace", "delete",
      "return", "enter", "tab", "space", "escape", "pagedown", "pageup",
      "shift", "control", "platform", "function", "alt"] : List String)) :
    icon_for_key key style = none := by
  unfold icon_for_key
  split <;> simp_all

-- Sanity checks mirroring the source's own test `test_text_for_keystroke`.
example :
    keystroke_text ⟨true, true, false, false, false⟩ "delete"
      PlatformStyle.Mac = "Control-Option-Delete" := by decide
example :
    keystroke_text ⟨false, false, false, true, false⟩ "c"
      PlatformStyle.Linux = "Super-C" := by decide
example :
    keystroke_text ⟨false, false, true, false, false⟩ "pageup"
      PlatformStyle.Windows = "Shift-PageUp" := by decide

/-- C1 (counterexample): with alt and platform both enabled, `keystroke_text`
emits the platform label before the alt label ("Command-Option-K" on Mac),
while the claimed order (function, control, alt, platform, shift — embodied by
`keystroke_text_spec_order`, written from the spec's words) would put the alt
label first ("Option-Command-K"). -/
theorem keystroke_text_alt_platform_counterexample :
    keystroke_text ⟨false, true, false, true, false⟩ "k" PlatformStyle.Mac
        = "Command-Option-K" ∧
      keystroke_text_spec_order ⟨false, true, false, true, false⟩ "k"
          PlatformStyle.Mac
        = "Option-Command-K" ∧
      keystroke_text ⟨false, true, false, true, false⟩ "k" PlatformStyle.Mac
        ≠ keystroke_text_spec_order ⟨false, true, false, true, false⟩ "k"
            PlatformStyle.Mac := by
  refine ⟨rfl, rfl, ?_⟩
  decide

/-- C1 (amended): for every modifier set, key and platform style, the label
produced by `keystroke_text` is the enabled-modifier words in the fixed order
function, control, platform, alt, shift — each followed by the delimiter —
followed by the final key token. -/
theorem keystroke_text_modifier_order (m : Modifiers) (key : String)
    (style : PlatformStyle) :
    keystroke_text m key style = modifier_text m style ++ final_key_label key :=
  keystroke_text_decompose m key style

/-- C5: exact label strings for {control, alt} + "delete" and for
{platform} + "c" on each platform style. -/
theorem keystroke_text_concrete_labels :
    keystroke_text ⟨true, true, false, false, false⟩ "delete" PlatformStyle.Mac
        = "Control-Option-Delete" ∧
      keystroke_text ⟨true, true, false, false, false⟩ "delete"
          PlatformStyle.Linux
        = "Ctrl-Alt-Delete" ∧
      keystroke_text ⟨true, true, false, false, false⟩ "delete"
          PlatformStyle.Windows
        = "Ctrl-Alt-Delete" ∧
      keystroke_text ⟨false, false, false, true, false⟩ "c" PlatformStyle.Mac
        = "Command-C" ∧
      keystroke_text ⟨false, false, false, true, false⟩ "c" PlatformStyle.Linux
        = "Super-C" ∧
      keystroke_text ⟨false, false, false, true, false⟩ "c"
          PlatformStyle.Windows
        = "Win-C" := by
  decide

/-- C6: the formatted label ends with the final key token — "PageUp" for
"pageup", "PageDown" for "pagedown", otherwise the key with only its first
character uppercased — and nothing (in particular no delimiter) follows it. -/
theorem keystroke_text_final_key (m : Modifiers) (key : String)
    (style : PlatformStyle) :
    keystroke_text m key style = modifier_text m style ++ final_key_label key ∧
      final_key_label "pageup" = "PageUp" ∧
      final_key_label "pagedown" = "PageDown" ∧
      (key ≠ "pageup" → key ≠ "pagedown" →
        final_key_label key = util.capitalize key) :=
  ⟨keystroke_text_decompose m key style, rfl, rfl,
    fun h1 h2 => final_key_label_of_ne key h1 h2⟩

theorem keystroke_text_final_key_witness :
    final_key_label "enter" = util.capitalize "enter" :=
  (keystroke_text_final_key ⟨false, false, false, false, false⟩ "enter"
      PlatformStyle.Mac).2.2.2 (by decide) (by decide)

/-- C8: formatting an empty keystroke sequence yields the empty string rather
than failing. -/
theorem text_for_keystrokes_empty (style : PlatformStyle) :
    text_for_keystrokes [] style = "" := rfl

/-- C3: on Mac, `render_modifiers` emits the enabled-modifier tokens with no
separator token at all (the platform separator is `None`); on Linux and
Windows it emits the enabled-modifier tokens with a Plus separator between
every two consecutive ones and nowhere leading, plus one trailing Plus exactly
when at least one modifier is enabled and `trailing_separator` is true. -/
theorem render_modifiers_separator_placement (m : Modifiers) (t : Bool)
    (style : PlatformStyle) :
    (render_modifiers m PlatformStyle.Mac t
        = enabled_modifier_tokens m PlatformStyle.Mac ∧
      KeyOrIcon.Plus ∉ render_modifiers m PlatformStyle.Mac t) ∧
    (style = PlatformStyle.Linux ∨ style = PlatformStyle.Windows →
      render_modifiers m style t
        = List.intersperse KeyOrIcon.Plus (enabled_modifier_tokens m style) ++
            (if (m.function || m.control || m.alt || m.platform || m.shift)
                && t
              then [KeyOrIcon.Plus] else [])) := by
  obtain ⟨c, a, s, p, f⟩ := m
  cases c <;> cases a <;> cases s <;> cases p <;> cases f <;> cases t <;>
    cases style <;> decide

theorem render_modifiers_separator_placement_witness :
    render_modifiers ⟨true, true, false, false, false⟩ PlatformStyle.Linux true
      = List.intersperse KeyOrIcon.Plus
          (enabled_modifier_tokens ⟨true, true, false, false, false⟩
            PlatformStyle.Linux) ++
          (if (false || true || true || false || false) && true
            then [KeyOrIcon.Plus] else []) :=
  (render_modifiers_separator_placement ⟨true, true, false, false, false⟩ true
      PlatformStyle.Linux).2 (Or.inl rfl)

/-- C4: the key-to-icon lookup maps the fixed navigation/editing keys to their
icons on every platform style (backspace and delete sharing the backspace
icon, return and enter sharing the return icon), maps the modifier-name key
strings to Shift/Control/Command/Control/Option icons exactly on Mac (none
elsewhere, function and control sharing the Control icon), and yields no icon
for any other key. -/
theorem icon_for_key_characterization (style : PlatformStyle) (key : String) :
    (icon_for_key "left" style = some IconName.ArrowLeft ∧
      icon_for_key "right" style = some IconName.ArrowRight ∧
      icon_for_key "up" style = some IconName.ArrowUp ∧
      icon_for_key "down" style = some IconName.ArrowDown ∧
      icon_for_key "backspace" style = some IconName.Backspace ∧
      icon_for_key "delete" style = some IconName.Backspace ∧
      icon_for_key "return" style = some IconName.Return ∧
      icon_for_key "enter" style = some IconName.Return ∧
      icon_for_key "tab" style = some IconName.Tab ∧
      icon_for_key "space" style = some IconName.Space ∧
      icon_for_key "escape" style = some IconName.Escape ∧
      icon_for_key "pagedown" style = some IconName.PageDown ∧
      icon_for_key "pageup" style = some IconName.PageUp) ∧
    (icon_for_key "shift" PlatformStyle.Mac = some IconName.Shift ∧
      icon_for_key "control" PlatformStyle.Mac = some IconName.Control ∧
      icon_for_key "platform" PlatformStyle.Mac = some IconName.Command ∧
      icon_for_key "function" PlatformStyle.Mac = some IconName.Control ∧
      icon_for_key "alt" PlatformStyle.Mac = some IconName.Option) ∧
    (style ≠ PlatformStyle.Mac →
      icon_for_key "shift" style = none ∧
        icon_for_key "control" style = none ∧
        icon_for_key "platform" style = none ∧
        icon_for_key "function" style = none ∧
        icon_for_key "alt" style = none) ∧
    (key ∉ (["left", "right", "up", "down", "backspace", "delete", "return",
        "enter", "tab", "space", "escape", "pagedown", "pageup", "shift",
        "control", "platform", "function", "alt"] : List String) →
      icon_for_key key style = none) := by
  refine ⟨?_, ?_, ?_, fun h => icon_for_key_none_of_unlisted key style h⟩ <;>
    cases style <;> decide

theorem icon_for_key_characterization_witness :
    icon_for_key "shift" PlatformStyle.Linux = none ∧
      icon_for_key "q" PlatformStyle.Linux = none :=
  ⟨((icon_for_key_characterization PlatformStyle.Linux "q").2.2.1
      (by decide)).1,
    (icon_for_key_characterization PlatformStyle.Linux "q").2.2.2 (by decide)⟩

/-- C9: on the Linux and Windows styles, `render_keybinding_keystroke`
produces exactly one token, a text token holding the full `keystroke_text`
label of the keystroke at that style. -/
theorem render_keybinding_keystroke_text_path (k : KeybindingKeystroke)
    (style : PlatformStyle)
    (h : style = PlatformStyle.Linux ∨ style = PlatformStyle.Windows) :
    render_keybinding_keystroke k style
      = [KeyOrIcon.Key (keystroke_text k.modifiers k.key style)] := by
  rcases h with h | h <;> subst h <;> rfl

theorem render_keybinding_keystroke_text_path_witness :
    render_keybinding_keystroke ⟨⟨true, false, false, false, false⟩, "a"⟩
        PlatformStyle.Linux
      = [KeyOrIcon.Key
          (keystroke_text ⟨true, false, false, false, false⟩ "a"
            PlatformStyle.Linux)] :=
  render_keybinding_keystroke_text_path
    ⟨⟨true, false, false, false, false⟩, "a"⟩ PlatformStyle.Linux (Or.inl rfl)

/-- C7: `text_for_keystrokes` is the space-join of the per-keystroke labels in
sequence order — a one-element sequence yields exactly its sole keystroke's
label, the general value is the space-join of the mapped labels, and joining
two non-empty sequences concatenates their labels around a single space. -/
theorem text_for_keystrokes_join (style : PlatformStyle) (k : Keystroke)
    (ks xs ys : List Keystroke) :
    text_for_keystrokes [k] style = keystroke_text k.modifiers k.key style ∧
      text_for_keystrokes ks style
        = join_with " "
            (ks.map (fun s => keystroke_text s.modifiers s.key style)) ∧
      (xs ≠ [] → ys ≠ [] →
        text_for_keystrokes (xs ++ ys) style
          = text_for_keystrokes xs style ++ " " ++
              text_for_keystrokes ys style) := by
  refine ⟨rfl, rfl, fun hx hy => ?_⟩
  unfold text_for_keystrokes
  rw [List.map_append]
  exact join_with_append " " _ _ (by simpa using hx) (by simpa using hy)

theorem text_for_keystrokes_join_witness :
    text_for_keystrokes
        ([⟨⟨true, false, false, false, false⟩, "a"⟩] ++
          [⟨⟨false, false, false, false, false⟩, "b"⟩]) PlatformStyle.Linux
      = text_for_keystrokes [⟨⟨true, false, false, false, false⟩, "a"⟩]
            PlatformStyle.Linux ++ " " ++
          text_for_keystrokes [⟨⟨false, false, false, false, false⟩, "b"⟩]
            PlatformStyle.Linux :=
  (text_for_keystrokes_join PlatformStyle.Linux
      ⟨⟨true, false, false, false, false⟩, "a"⟩ []
      [⟨⟨true, false, false, false, false⟩, "a"⟩]
      [⟨⟨false, false, false, false, false⟩, "b"⟩]).2.2
    (by decide) (by decide)

/-- C10: `has_binding` is false for every keystroke-list source and for every
action source without a focus handle (for any window, hence even when the
window does hold a binding for the action), and it can only return true when
the source is an action with a focus handle. -/
theorem has_binding_only_with_focus_handle (w : Window)
    (ks : List KeybindingKeystroke) (a : Nat) (g : PlatformStyle)
    (kb : KeyBinding) :
    (KeyBinding.from_keystrokes ks g).has_binding w = false ∧
      (KeyBinding.for_action a g).has_binding w = false ∧
      (kb.has_binding w = true →
        ∃ act focus, kb.source = Source.Action act (some focus)) := by
  refine ⟨rfl, rfl, fun h => ?_⟩
  rcases hs : kb.source with ⟨act, _ | focus⟩ | ks2
  · simp [KeyBinding.has_binding, hs] at h
  · exact ⟨act, focus, hs ▸ rfl⟩
  · simp [KeyBinding.has_binding, hs] at h

theorem has_binding_only_with_focus_handle_witness :
    ∃ act focus,
      (KeyBinding.for_action_in 0 1 PlatformStyle.Mac).source
        = Source.Action act (some focus) :=
  (has_binding_only_with_focus_handle
      ⟨fun _ _ => some [⟨⟨false, false, false, false, false⟩, "a"⟩],
        fun _ => none, none⟩
      [] 0 PlatformStyle.Mac
      (KeyBinding.for_action_in 0 1 PlatformStyle.Mac)).2.2 rfl

/-- C2: `KeyBinding::render` does not honour the `platform_style` override.
A binding built from the keystroke ctrl-a with the override set to Mac, when
the process-wide style is Linux, renders the Linux-style single text token
"Ctrl-A" rather than the Mac-style icon-and-key tokens. -/
theorem render_ignores_platform_style_override :
    ((KeyBinding.from_keystrokes
          [⟨⟨true, false, false, false, false⟩, "a"⟩]
          PlatformStyle.Linux).set_platform_style
        PlatformStyle.Mac).platform_style = PlatformStyle.Mac ∧
      KeyBinding.render
          ((KeyBinding.from_keystrokes
              [⟨⟨true, false, false, false, false⟩, "a"⟩]
              PlatformStyle.Linux).set_platform_style PlatformStyle.Mac)
          ⟨fun _ _ => none, fun _ => none, none⟩ PlatformStyle.Linux
        = some [[KeyOrIcon.Key "Ctrl-A"]] ∧
      render_keybinding_keystroke ⟨⟨true, false, false, false, false⟩, "a"⟩
          PlatformStyle.Mac
        = [KeyOrIcon.Icon IconName.Control, KeyOrIcon.Key "A"] ∧
      ([[KeyOrIcon.Key "Ctrl-A"]] : List (List KeyOrIcon))
        ≠ [[KeyOrIcon.Icon IconName.Control, KeyOrIcon.Key "A"]] := by
  refine ⟨rfl, rfl, rfl, ?_⟩
  decide
